import Mathlib

/-!
Shallow embedding of the per-session concurrency engine of the screenum
repository (src/services/gemini_client.py and src/services/session_service.py).

Modelling conventions:
- Python dicts keyed by SessionID become functions `SessionID -> Option _`
  mutated with Function.update; an absent key is `none`.
- asyncio tasks are entries of a global table `tasks : Nat -> Option TaskStatus`;
  cancelling a task and awaiting its termination marks it `done`.  Removing a
  store entry does NOT touch the table, so a task can outlive its store entry.
- asyncio.Queue with maxsize > 0: put_nowait appends if qsize < maxsize and
  fails (QueueFull) otherwise, never blocking.
- Exceptions thrown by external collaborators (the WebRTC adapter close, the
  awaited tasks, the AsyncExitStack aclose, the Gemini connect call) are
  injected through an environment record; `Except GState GState` threads the
  state at the point a teardown step raised.
- Items travelling through the queues are `QItem`: a Python str, a dict (of
  which only the keys "data" and "mime_type" are ever read by the processors;
  a missing key raises KeyError, a non-string mime_type makes the membership
  test raise TypeError), or any other object.
-/

abbrev SessionID := String

inductive TaskStatus where
  | running
  | done
deriving DecidableEq, Repr

/-- Value stored under the dict key "mime_type": a Python str or any
non-string object (for which the str containment test raises TypeError). -/
inductive MimeVal where
  | s (v : String)
  | nonstring
deriving DecidableEq, Repr

/-- The dict items put on the send queues; only the keys "data" and
"mime_type" are ever read, so the model records just those two, each
optional because the processors must face dicts lacking them. -/
structure ItemDict where
  data : Option (List Nat)
  mime_type : Option MimeVal
deriving DecidableEq, Repr

/-- An item of a send queue: a Python str (queue_text), a dict
(queue_audio / queue_image) or any other object. -/
inductive QItem where
  | text (s : String)
  | dict (d : ItemDict)
  | other
deriving DecidableEq, Repr

/-- Python substring containment needle in haystack. -/
def containsSub (needle hay : String) : Bool :=
  hay.toList.tails.any (fun t => needle.toList.isPrefixOf t)

/-- Bounded asyncio.Queue with maxsize greater than zero. -/
structure BQueue where
  items : List QItem
  maxsize : Nat
deriving DecidableEq, Repr

/-- asyncio.Queue.put_nowait: appends when qsize is below maxsize, returns
none (QueueFull) otherwise.  It never blocks. -/
def BQueue.put_nowait (q : BQueue) (it : QItem) : Option BQueue :=
  if q.items.length < q.maxsize then some { q with items := q.items ++ [it] } else none

/-- The CallbackDict of a session: which of the three optional callbacks
were registered. -/
structure CallbackSet where
  on_audio : Bool
  on_text : Bool
  on_error : Bool
deriving DecidableEq, Repr

/-- The session_stats dict of one session. -/
structure Stats where
  audio_sent : Nat
  images_sent : Nat
  images_skipped : Nat
  audio_received : Nat
deriving DecidableEq, Repr

/-- The JSON object persisted in Redis under session:(id). -/
structure SessionMeta where
  status : String
  system_instruction : String
deriving DecidableEq, Repr

/-- A message forwarded to the Gemini live connection. -/
inductive SendMsg where
  | clientText (s : String)
  | realtimeAudio (data : List Nat) (mime : String)
  | realtimeVideo (data : List Nat) (mime : String)
deriving DecidableEq, Repr

/-- Global state: the nine dicts of SessionStores, plus the asyncio task
table, a fresh-id counter, the log of messages sent to the live connection,
the count of on_error callback invocations, and the Redis keyspace
(value paired with its optional TTL). -/
structure GState where
  sessions : SessionID → Option Unit
  callbacks : SessionID → Option CallbackSet
  response_listeners : SessionID → Option Nat
  send_processor : SessionID → Option (Nat × Nat)
  audio_send_queues : SessionID → Option BQueue
  media_send_queues : SessionID → Option BQueue
  contexts : SessionID → Option Nat
  webrtc_managers : SessionID → Option Nat
  session_stats : SessionID → Option Stats
  tasks : Nat → Option TaskStatus
  fresh : Nat
  sentLog : List SendMsg
  errorCalls : Nat
  redis : String → Option (SessionMeta × Option Nat)

/-- The empty state: no sessions, no tasks, empty Redis. -/
def emptyG : GState where
  sessions := fun _ => none
  callbacks := fun _ => none
  response_listeners := fun _ => none
  send_processor := fun _ => none
  audio_send_queues := fun _ => none
  media_send_queues := fun _ => none
  contexts := fun _ => none
  webrtc_managers := fun _ => none
  session_stats := fun _ => none
  tasks := fun _ => none
  fresh := 0
  sentLog := []
  errorCalls := 0
  redis := fun _ => none

/-- Mark one asyncio task as terminated (cancel + await completed). -/
def GState.markDone (st : GState) (t : Nat) : GState :=
  { st with tasks := Function.update st.tasks t (some TaskStatus.done) }

/-- SessionStores.clear_session: delete session_id from every one of the
nine store dicts.  The task table is not a store and is untouched. -/
def clear_session (st : GState) (sid : SessionID) : GState :=
  { st with
    sessions := Function.update st.sessions sid none
    callbacks := Function.update st.callbacks sid none
    response_listeners := Function.update st.response_listeners sid none
    send_processor := Function.update st.send_processor sid none
    audio_send_queues := Function.update st.audio_send_queues sid none
    media_send_queues := Function.update st.media_send_queues sid none
    contexts := Function.update st.contexts sid none
    webrtc_managers := Function.update st.webrtc_managers sid none
    session_stats := Function.update st.session_stats sid none }

/-- GeminiLiveClient.queue_audio: look the audio queue up, fail if absent,
else put_nowait the dict with mime_type audio/pcm; QueueFull yields false. -/
def queue_audio (st : GState) (sid : SessionID) (audio_data : List Nat) : Bool × GState :=
  match st.audio_send_queues sid with
  | none => (false, st)
  | some q =>
    match q.put_nowait (QItem.dict ⟨some audio_data, some (MimeVal.s "audio/pcm")⟩) with
    | some q2 =>
      (true, { st with audio_send_queues := Function.update st.audio_send_queues sid (some q2) })
    | none => (false, st)

/-- GeminiLiveClient.queue_text: put_nowait the raw string on the audio/text
queue. -/
def queue_text (st : GState) (sid : SessionID) (text : String) : Bool × GState :=
  match st.audio_send_queues sid with
  | none => (false, st)
  | some q =>
    match q.put_nowait (QItem.text text) with
    | some q2 =>
      (true, { st with audio_send_queues := Function.update st.audio_send_queues sid (some q2) })
    | none => (false, st)

/-- GeminiLiveClient.queue_image: put_nowait the dict on the media queue. -/
def queue_image (st : GState) (sid : SessionID) (image_data : List Nat) (mime_type : String) :
    Bool × GState :=
  match st.media_send_queues sid with
  | none => (false, st)
  | some q =>
    match q.put_nowait (QItem.dict ⟨some image_data, some (MimeVal.s mime_type)⟩) with
    | some q2 =>
      (true, { st with media_send_queues := Function.update st.media_send_queues sid (some q2) })
    | none => (false, st)

/-- The dict that queue_audio builds for a payload. -/
def audioItem (b : List Nat) : QItem :=
  QItem.dict ⟨some b, some (MimeVal.s "audio/pcm")⟩

/-- The dict that queue_image builds for a payload. -/
def imageItem (b : List Nat) (mime : String) : QItem :=
  QItem.dict ⟨some b, some (MimeVal.s mime)⟩

/-- Which external teardown steps raise a (non-CancelledError) exception
during GeminiLiveClient.close_session: the WebRTCManager.close call, the
three awaited tasks, and the AsyncExitStack.aclose call. -/
structure TearEnv where
  webrtcCloseRaises : Bool
  awaitListenerRaises : Bool
  awaitAudioRaises : Bool
  awaitMediaRaises : Bool
  contextCloseRaises : Bool
deriving DecidableEq, Repr

/-- Teardown step 4 of close_session: close the AsyncExitStack context if one
is registered; it may raise. -/
def closeCtx (env : TearEnv) (st : GState) (sid : SessionID) : Except GState GState :=
  if env.contextCloseRaises && (st.contexts sid).isSome then Except.error st
  else Except.ok st

/-- Teardown step 3 of close_session: cancel and await the two send-processor
tasks in insertion order (audio first, then media).  A raise while awaiting
the audio task aborts the loop before the media task is even cancelled. -/
def closeProcs (env : TearEnv) (st : GState) (sid : SessionID) : Except GState GState :=
  match st.send_processor sid with
  | none => closeCtx env st sid
  | some (ta, tm) =>
    let st1 := st.markDone ta
    if env.awaitAudioRaises then Except.error st1
    else
      let st2 := st1.markDone tm
      if env.awaitMediaRaises then Except.error st2
      else closeCtx env st2 sid

/-- The body of the try block of GeminiLiveClient.close_session: close the
WebRTC manager (step 1), cancel and await the response listener (step 2),
then the processors (step 3), then close the context (step 4).  An error
carries the state at the point the step raised; every step after a raising
one is skipped. -/
def closeBody (env : TearEnv) (st : GState) (sid : SessionID) : Except GState GState :=
  if env.webrtcCloseRaises && (st.webrtc_managers sid).isSome then Except.error st
  else
    match st.response_listeners sid with
    | none => closeProcs env st sid
    | some t =>
      let st1 := st.markDone t
      if env.awaitListenerRaises then Except.error st1 else closeProcs env st1 sid

/-- GeminiLiveClient.close_session: returns false at once for an unknown
session; otherwise runs the teardown body; on success clears every store and
returns true; when a step raises, the except block clears every store and
returns false without running the remaining steps. -/
def close_session (env : TearEnv) (st : GState) (sid : SessionID) : Bool × GState :=
  if (st.sessions sid).isSome then
    match closeBody env st sid with
    | Except.ok st2 => (true, clear_session st2 sid)
    | Except.error st2 => (false, clear_session st2 sid)
  else (false, st)

/-- SessionService.close_session: close locally, delete the Redis key, and
report closed_locally or (deleted_from_redis greater than zero). -/
def svc_close_session (env : TearEnv) (st : GState) (sid : SessionID) : Bool × GState :=
  let r := close_session env st sid
  let key := "session:" ++ sid
  let deleted : Nat := if (r.2.redis key).isSome then 1 else 0
  (r.1 || decide (0 < deleted),
   { r.2 with redis := Function.update r.2.redis key none })

/-- Outcome of the client.aio.live.connect call inside
create_webrtc_session. -/
inductive ConnectOutcome where
  | connOk
  | invalidStatus
  | valueError
  | runtimeError
  | keyError
  | otherError
deriving DecidableEq, Repr

/-- Environment of create_webrtc_session: the teardown environment used when
a colliding session is closed first, whether GEMINI_API_KEY is missing
(making the lazy client constructor raise ValueError), and the outcome of
the connect call. -/
structure CreateEnv where
  tear : TearEnv
  apiKeyMissing : Bool
  connect : ConnectOutcome
deriving DecidableEq, Repr

/-- Result of create_webrtc_session as seen by its caller: the returned
WebRTCManager, a None return (exception caught by the outer except), or an
exception propagating out of the coroutine. -/
inductive CreateRes where
  | manager (id : Nat)
  | noneRes
  | raised (c : ConnectOutcome)
deriving DecidableEq, Repr

/-- GeminiLiveClient._handle_error: invoke the session's on_error callback
when one is registered. -/
def handle_error (st : GState) (sid : SessionID) : GState :=
  match st.callbacks sid with
  | some cb => if cb.on_error then { st with errorCalls := st.errorCalls + 1 } else st
  | none => st

/-- GeminiLiveClient.create_webrtc_session.  A colliding SessionID is closed
first.  The AsyncExitStack is registered in contexts BEFORE the connect
call; ValueError, RuntimeError and KeyError are caught by the outer except
(returning None), InvalidStatus is re-raised and, like any other exception,
propagates; no failure path removes the contexts entry.  On success the
session, callbacks, both queues (capacities 50 and 1), zeroed stats, the
response listener and the two processor tasks, and the WebRTC manager are
registered in that order. -/
def create_webrtc_session (env : CreateEnv) (st0 : GState) (sid : SessionID)
    (cb : CallbackSet) : CreateRes × GState :=
  let st := if (st0.sessions sid).isSome then (close_session env.tear st0 sid).2 else st0
  if env.apiKeyMissing then (CreateRes.noneRes, handle_error st sid)
  else
    let ctxId := st.fresh
    let st := { st with
      contexts := Function.update st.contexts sid (some ctxId)
      fresh := st.fresh + 1 }
    match env.connect with
    | ConnectOutcome.invalidStatus => (CreateRes.raised ConnectOutcome.invalidStatus, st)
    | ConnectOutcome.otherError => (CreateRes.raised ConnectOutcome.otherError, st)
    | ConnectOutcome.valueError => (CreateRes.noneRes, handle_error st sid)
    | ConnectOutcome.runtimeError => (CreateRes.noneRes, handle_error st sid)
    | ConnectOutcome.keyError => (CreateRes.noneRes, handle_error st sid)
    | ConnectOutcome.connOk =>
      let tL := st.fresh
      let tA := st.fresh + 1
      let tM := st.fresh + 2
      let mgrId := st.fresh + 3
      (CreateRes.manager mgrId,
       { st with
         sessions := Function.update st.sessions sid (some ())
         callbacks := Function.update st.callbacks sid (some cb)
         audio_send_queues := Function.update st.audio_send_queues sid (some ⟨[], 50⟩)
         media_send_queues := Function.update st.media_send_queues sid (some ⟨[], 1⟩)
         session_stats := Function.update st.session_stats sid (some ⟨0, 0, 0, 0⟩)
         response_listeners := Function.update st.response_listeners sid (some tL)
         send_processor := Function.update st.send_processor sid (some (tA, tM))
         webrtc_managers := Function.update st.webrtc_managers sid (some mgrId)
         tasks := Function.update (Function.update (Function.update st.tasks
           tL (some TaskStatus.running)) tA (some TaskStatus.running)) tM
           (some TaskStatus.running)
         fresh := st.fresh + 4 })

/-- Effect of one dequeued item on the world, common shape of the two send
processors: what (if anything) was forwarded to the live connection, the
stat increments, and whether the except branch ran (routing the exception to
_handle_error). -/
structure IterEffect where
  sent : Option SendMsg := none
  audioSentInc : Nat := 0
  imagesSentInc : Nat := 0
  errorCb : Bool := false
deriving DecidableEq, Repr

/-- The branch body of _process_audio_queue for one dequeued item.  A str is
sent as a complete user turn; a dict is sent as realtime audio input when
its mime_type is a string containing audio (reading a missing mime_type or
data key raises KeyError, a non-string mime_type raises TypeError in the
membership test, and a failing send raises, all landing in the except
branch); anything else falls through silently. -/
def audioIterEffect (item : QItem) (sendOk : Bool) : IterEffect :=
  match item with
  | QItem.text s =>
    if sendOk then { sent := some (SendMsg.clientText s) } else { errorCb := true }
  | QItem.dict d =>
    match d.mime_type with
    | none => { errorCb := true }
    | some MimeVal.nonstring => { errorCb := true }
    | some (MimeVal.s m) =>
      if containsSub "audio" m then
        match d.data with
        | none => { errorCb := true }
        | some b =>
          if sendOk then
            { sent := some (SendMsg.realtimeAudio b m), audioSentInc := 1 }
          else { errorCb := true }
      else {}
  | QItem.other => {}

/-- The branch body of _process_media_queue for one dequeued item: only a
dict whose mime_type is a string containing image is forwarded as realtime
video input; a str or other object falls through silently; missing keys and
non-string mime_type raise into the except branch, as does a failing
send. -/
def mediaIterEffect (item : QItem) (sendOk : Bool) : IterEffect :=
  match item with
  | QItem.text _ => {}
  | QItem.dict d =>
    match d.mime_type with
    | none => { errorCb := true }
    | some MimeVal.nonstring => { errorCb := true }
    | some (MimeVal.s m) =>
      if containsSub "image" m then
        match d.data with
        | none => { errorCb := true }
        | some b =>
          if sendOk then
            { sent := some (SendMsg.realtimeVideo b m), imagesSentInc := 1 }
          else { errorCb := true }
      else {}
  | QItem.other => {}

/-- Apply the effect of one processor iteration to the global state: bump
the session stats entry when one exists, append the forwarded message to the
send log, and invoke the error callback through _handle_error when the
except branch ran. -/
def applyEffect (st : GState) (sid : SessionID) (eff : IterEffect) : GState :=
  let stats2 :=
    match st.session_stats sid with
    | some s =>
      let s2 := { s with audio_sent := s.audio_sent + eff.audioSentInc,
                         images_sent := s.images_sent + eff.imagesSentInc }
      Function.update st.session_stats sid (some s2)
    | none => st.session_stats
  let onErr :=
    match st.callbacks sid with
    | some cb => cb.on_error
    | none => false
  { st with
    session_stats := stats2
    sentLog := st.sentLog ++ eff.sent.toList
    errorCalls := st.errorCalls + (if eff.errorCb && onErr then 1 else 0) }

/-- One iteration of _process_audio_queue: with the session still registered
and the queue non-empty, dequeue the front item and run the branch body; an
empty queue blocks (no step) and a deregistered session exits the loop (no
step). -/
def audioProcessorStep (st : GState) (sid : SessionID) (sendOk : Bool) : GState :=
  if (st.sessions sid).isSome then
    match st.audio_send_queues sid with
    | none => st
    | some q =>
      match q.items with
      | [] => st
      | item :: rest =>
        let aq := Function.update st.audio_send_queues sid (some ⟨rest, q.maxsize⟩)
        applyEffect { st with audio_send_queues := aq } sid (audioIterEffect item sendOk)
  else st

/-- One iteration of _process_media_queue, mirror image of the audio step on
the media queue. -/
def mediaProcessorStep (st : GState) (sid : SessionID) (sendOk : Bool) : GState :=
  if (st.sessions sid).isSome then
    match st.media_send_queues sid with
    | none => st
    | some q =>
      match q.items with
      | [] => st
      | item :: rest =>
        let mq := Function.update st.media_send_queues sid (some ⟨rest, q.maxsize⟩)
        applyEffect { st with media_send_queues := mq } sid (mediaIterEffect item sendOk)
  else st

/-- The handle_audio_frame closure wired into the WebRTCManager: enqueue the
frame and, on success, bump audio_sent (through the session_stats entry when
one exists). -/
def handle_audio_frame (st : GState) (sid : SessionID) (audio_data : List Nat) : GState :=
  let r := queue_audio st sid audio_data
  if r.1 then
    match r.2.session_stats sid with
    | some s =>
      let s2 := { s with audio_sent := s.audio_sent + 1 }
      { r.2 with session_stats := Function.update r.2.session_stats sid (some s2) }
    | none => r.2
  else r.2

/-- The handle_video_frame closure wired into the WebRTCManager: enqueue the
frame as image/jpeg and bump images_sent on success, images_skipped on
drop. -/
def handle_video_frame (st : GState) (sid : SessionID) (frame_data : List Nat) : GState :=
  let r := queue_image st sid frame_data "image/jpeg"
  match r.2.session_stats sid with
  | some s =>
    if r.1 then
      let s2 := { s with images_sent := s.images_sent + 1 }
      { r.2 with session_stats := Function.update r.2.session_stats sid (some s2) }
    else
      let s2 := { s with images_skipped := s.images_skipped + 1 }
      { r.2 with session_stats := Function.update r.2.session_stats sid (some s2) }
  | none => r.2

/-- Iterate queue_audio over a list of payloads, returning the result of
each call in order together with the final state. -/
def queueAudioN (st : GState) (sid : SessionID) : List (List Nat) → List Bool × GState
  | [] => ([], st)
  | d :: rest =>
    let r := queue_audio st sid d
    let rr := queueAudioN r.2 sid rest
    (r.1 :: rr.1, rr.2)

/-- Iterate queue_image over a list of payloads with a fixed mime type. -/
def queueImageN (st : GState) (sid : SessionID) (mime : String) :
    List (List Nat) → List Bool × GState
  | [] => ([], st)
  | d :: rest =>
    let r := queue_image st sid d mime
    let rr := queueImageN r.2 sid mime rest
    (r.1 :: rr.1, rr.2)

/-- Outcome of SessionService.set_webrtc_answer as seen over HTTP. -/
inductive HRes where
  | okRes
  | notFound
  | badRequest
deriving DecidableEq, Repr

/-- SessionService.set_webrtc_answer: 404 when the Redis key is absent or
expired, 404 when no WebRTCManager is registered, 400 when the adapter
rejects the answer (Redis untouched), else rewrite the persisted metadata
with status active and no TTL. -/
def set_webrtc_answer (st : GState) (sid : SessionID) (adapterAccepts : Bool) :
    HRes × GState :=
  let key := "session:" ++ sid
  match st.redis key with
  | none => (HRes.notFound, st)
  | some (meta, _ttl) =>
    match st.webrtc_managers sid with
    | none => (HRes.notFound, st)
    | some _ =>
      if adapterAccepts then
        let rkv := Function.update st.redis key (some ({ meta with status := "active" }, none))
        (HRes.okRes, { st with redis := rkv })
      else (HRes.badRequest, st)

/-- The server_content part of a Gemini live event. -/
structure ServerContent where
  interrupted : Bool
deriving DecidableEq, Repr

/-- One event pulled by _listen_for_responses: optional server_content,
optional binary payload, optional text. -/
structure LiveEvent where
  server_content : Option ServerContent
  data : Option (List Nat)
  text : Option String
deriving DecidableEq, Repr

/-- A callback invocation recorded by the response listener. -/
inductive CbCall where
  | onAudio (b : List Nat)
  | onText (s : String)
deriving DecidableEq, Repr

/-- The per-event body of _listen_for_responses: an event whose
server_content is marked interrupted is skipped outright; otherwise a truthy
(present, non-empty) binary payload triggers the on_audio callback and bumps
audio_received, and a truthy text triggers the on_text callback. -/
def processEvent (cb : CallbackSet) (stats : Stats) (ev : LiveEvent) :
    List CbCall × Stats :=
  let interrupted :=
    match ev.server_content with
    | some sc => sc.interrupted
    | none => false
  if interrupted then ([], stats)
  else
    let audioPart :=
      match ev.data with
      | some b =>
        if b = [] then ([], stats)
        else ((if cb.on_audio then [CbCall.onAudio b] else []),
              { stats with audio_received := stats.audio_received + 1 })
      | none => ([], stats)
    let textCalls :=
      match ev.text with
      | some t => if t = "" then [] else if cb.on_text then [CbCall.onText t] else []
      | none => []
    (audioPart.1 ++ textCalls, audioPart.2)

/-! ## Concrete states shared by witnesses and counterexamples -/

/-- Teardown environment in which no external step raises. -/
def tearOk : TearEnv := ⟨false, false, false, false, false⟩

/-- Creation environment: key configured, connect succeeds, benign teardown. -/
def envOkC : CreateEnv := ⟨tearOk, false, ConnectOutcome.connOk⟩

/-- The callback set SessionService.create_session registers: on_audio and
on_error, no on_text. -/
def cbSvc : CallbackSet := ⟨true, false, true⟩

/-- State after successfully creating one WebRTC session with id s on the
empty state: context id 0, listener task 1, processor tasks 2 and 3,
manager id 4. -/
def stReg : GState := (create_webrtc_session envOkC emptyG "s" cbSvc).2

/-! ## C6: SetAnswer status transitions -/

/-- C6: set_webrtc_answer answers not-found when the persisted session key
or the WebRTCManager is missing; when the adapter rejects the answer it
answers bad-request and leaves the persisted metadata (in particular a
pending status) untouched; on success it rewrites the metadata with status
active (and drops the TTL). -/
theorem c6_set_answer_transitions (st : GState) (sid : SessionID) :
    (st.redis ("session:" ++ sid) = none →
      ∀ acc : Bool, set_webrtc_answer st sid acc = (HRes.notFound, st))
    ∧ (st.webrtc_managers sid = none →
      ∀ acc : Bool, set_webrtc_answer st sid acc = (HRes.notFound, st))
    ∧ (∀ meta ttl, st.redis ("session:" ++ sid) = some (meta, ttl) →
        (st.webrtc_managers sid).isSome →
        set_webrtc_answer st sid false = (HRes.badRequest, st)
        ∧ (set_webrtc_answer st sid true).1 = HRes.okRes
        ∧ (set_webrtc_answer st sid true).2.redis ("session:" ++ sid) =
            some ({ meta with status := "active" }, none)) := by
  refine ⟨?_, ?_, ?_⟩
  · intro h acc
    simp [set_webrtc_answer, h]
  · intro h acc
    cases hr : st.redis ("session:" ++ sid) with
    | none => simp [set_webrtc_answer, hr]
    | some v =>
      obtain ⟨meta, ttl⟩ := v
      simp [set_webrtc_answer, hr, h]
  · intro meta ttl h1 h2
    obtain ⟨m, hm⟩ := Option.isSome_iff_exists.mp h2
    refine ⟨?_, ?_, ?_⟩
    · simp [set_webrtc_answer, h1, hm]
    · simp [set_webrtc_answer, h1, hm]
    · simp [set_webrtc_answer, h1, hm]

/-- The pending metadata used by the C6 witness. -/
def metaPending : SessionMeta :=
  { status := "pending", system_instruction := "You are a helpful assistant" }

/-- Concrete state for the C6 witness: a pending session with a registered
manager. -/
def stC6 : GState :=
  { stReg with redis := Function.update stReg.redis "session:s" (some (metaPending, some 300)) }

/-- Witness for C6: on a concrete pending session with a registered manager,
a rejected answer yields bad-request with the metadata untouched and an
accepted answer yields success with status rewritten to active. -/
theorem c6_set_answer_transitions_witness :
    (stC6.redis ("session:" ++ "s") = some (metaPending, some 300)
     ∧ (stC6.webrtc_managers "s").isSome)
    ∧ (set_webrtc_answer stC6 "s" false = (HRes.badRequest, stC6)
       ∧ (set_webrtc_answer stC6 "s" true).1 = HRes.okRes
       ∧ (set_webrtc_answer stC6 "s" true).2.redis ("session:" ++ "s") =
           some ({ metaPending with status := "active" }, none)) :=
  ⟨⟨rfl, rfl⟩, (c6_set_answer_transitions stC6 "s").2.2 metaPending (some 300) rfl rfl⟩

/-! ## C7: interrupted events are skipped -/

/-- C7: an event whose server_content is marked interrupted is skipped by
the response listener body: no callback runs (in particular on_audio) and
the stats, including audio_received, are unchanged, even when the event
carries an audio payload. -/
theorem c7_interrupted_event_skipped (cb : CallbackSet) (stats : Stats)
    (ev : LiveEvent) (sc : ServerContent) (h1 : ev.server_content = some sc)
    (h2 : sc.interrupted = true) :
    processEvent cb stats ev = ([], stats) := by
  simp [processEvent, h1, h2]

/-- A concrete interrupted event carrying an audio payload and text. -/
def evInterrupted : LiveEvent := ⟨some ⟨true⟩, some [1, 2, 3], some "hi"⟩

/-- Witness for C7: the interrupted event with an audio payload produces no
callback invocation and leaves the stats untouched. -/
theorem c7_interrupted_event_skipped_witness :
    (evInterrupted.server_content = some ⟨true⟩
     ∧ (⟨true⟩ : ServerContent).interrupted = true)
    ∧ processEvent ⟨true, true, true⟩ ⟨0, 0, 0, 0⟩ evInterrupted = ([], ⟨0, 0, 0, 0⟩) :=
  ⟨⟨rfl, rfl⟩,
   c7_interrupted_event_skipped ⟨true, true, true⟩ ⟨0, 0, 0, 0⟩ evInterrupted ⟨true⟩ rfl rfl⟩

/-! ## C5: audio queue capacity -/

/-- Abbreviation for replacing one session's audio queue. -/
def GState.setAudioQ (st : GState) (sid : SessionID) (q : BQueue) : GState :=
  { st with audio_send_queues := Function.update st.audio_send_queues sid (some q) }

/-- Abbreviation for replacing one session's media queue. -/
def GState.setMediaQ (st : GState) (sid : SessionID) (q : BQueue) : GState :=
  { st with media_send_queues := Function.update st.media_send_queues sid (some q) }

theorem GState.setAudioQ_lookup (st : GState) (sid : SessionID) (q : BQueue) :
    (st.setAudioQ sid q).audio_send_queues sid = some q := by
  simp [GState.setAudioQ]

theorem GState.setMediaQ_lookup (st : GState) (sid : SessionID) (q : BQueue) :
    (st.setMediaQ sid q).media_send_queues sid = some q := by
  simp [GState.setMediaQ]

/-- A successful queue_audio call rewritten through the setter. -/
theorem queue_audio_success (st : GState) (sid : SessionID) (d : List Nat)
    (l : List QItem) (c : Nat) (h : st.audio_send_queues sid = some ⟨l, c⟩)
    (hfull : l.length < c) :
    queue_audio st sid d = (true, st.setAudioQ sid ⟨l ++ [audioItem d], c⟩) := by
  simp [queue_audio, h, BQueue.put_nowait, hfull, audioItem, GState.setAudioQ]

/-- A queue_audio call on a full queue fails and changes nothing. -/
theorem queue_audio_full (st : GState) (sid : SessionID) (d : List Nat)
    (l : List QItem) (c : Nat) (h : st.audio_send_queues sid = some ⟨l, c⟩)
    (hfull : ¬ l.length < c) :
    queue_audio st sid d = (false, st) := by
  simp [queue_audio, h, BQueue.put_nowait, hfull]

/-- General shape of a burst of queue_audio calls with no draining
processor: with the queue holding l of capacity c, the first c - l.length
calls succeed and every further call fails, and exactly the successful
payloads are appended, in order. -/
theorem queueAudioN_spec (datas : List (List Nat)) :
    ∀ (st : GState) (sid : SessionID) (l : List QItem) (c : Nat),
      st.audio_send_queues sid = some ⟨l, c⟩ → l.length ≤ c →
      (queueAudioN st sid datas).1 =
        List.replicate (min datas.length (c - l.length)) true
          ++ List.replicate (datas.length - (c - l.length)) false
      ∧ (queueAudioN st sid datas).2.audio_send_queues sid =
          some ⟨l ++ (datas.take (c - l.length)).map audioItem, c⟩ := by
  induction datas with
  | nil =>
    intro st sid l c h hl
    simp [queueAudioN, h]
  | cons d rest ih =>
    intro st sid l c h hl
    by_cases hfull : l.length < c
    · have hq := queue_audio_success st sid d l c h hfull
      have h2 := GState.setAudioQ_lookup st sid ⟨l ++ [audioItem d], c⟩
      obtain ⟨ih1, ih2⟩ := ih _ sid (l ++ [audioItem d]) c h2 (by simp; omega)
      simp only [List.length_append, List.length_cons, List.length_nil,
        Nat.zero_add] at ih1 ih2
      have hk : c - l.length = (c - (l.length + 1)) + 1 := by omega
      have hstep1 : (queueAudioN st sid (d :: rest)).1 =
          true :: (queueAudioN (st.setAudioQ sid ⟨l ++ [audioItem d], c⟩) sid rest).1 := by
        simp [queueAudioN, hq]
      have hstep2 : (queueAudioN st sid (d :: rest)).2 =
          (queueAudioN (st.setAudioQ sid ⟨l ++ [audioItem d], c⟩) sid rest).2 := by
        simp [queueAudioN, hq]
      constructor
      · rw [hstep1, ih1, List.length_cons, hk]
        have e1 : min (rest.length + 1) (c - (l.length + 1) + 1) =
            min rest.length (c - (l.length + 1)) + 1 := by omega
        have e2 : rest.length + 1 - (c - (l.length + 1) + 1) =
            rest.length - (c - (l.length + 1)) := by omega
        rw [e1, e2, List.replicate_succ, List.cons_append]
      · rw [hstep2, ih2, hk, List.take_succ_cons, List.map_cons]
        simp [List.append_assoc]
    · have hq := queue_audio_full st sid d l c h hfull
      have hc : c - l.length = 0 := by omega
      obtain ⟨ih1, ih2⟩ := ih st sid l c h hl
      constructor
      · simp [queueAudioN, hq, ih1, hc, List.replicate_succ]
      · simp [queueAudioN, hq, ih2, hc]

/-- C5: on a session whose audio queue is fresh (empty, capacity 50) and not
drained, any burst of queue_audio calls sees its first 50 calls return true
and every later call return false without blocking (queue_audio is
non-blocking by construction), and the queue ends up holding exactly the
first 50 payloads: failed calls leave the contents unchanged. -/
theorem c5_queue_audio_capacity (st : GState) (sid : SessionID)
    (datas : List (List Nat)) (h : st.audio_send_queues sid = some ⟨[], 50⟩) :
    (queueAudioN st sid datas).1 =
      List.replicate (min datas.length 50) true
        ++ List.replicate (datas.length - 50) false
    ∧ (queueAudioN st sid datas).2.audio_send_queues sid =
        some ⟨(datas.take 50).map audioItem, 50⟩ := by
  have := queueAudioN_spec datas st sid [] 50 h (by simp)
  simpa using this

/-- Witness for C5: 60 concrete enqueues on a freshly created session give
50 successes followed by 10 failures and retain the first 50 payloads. -/
theorem c5_queue_audio_capacity_witness :
    stReg.audio_send_queues "s" = some ⟨[], 50⟩
    ∧ ((queueAudioN stReg "s" (List.replicate 60 [7])).1 =
        List.replicate (min (List.replicate 60 ([7] : List Nat)).length 50) true
          ++ List.replicate ((List.replicate 60 ([7] : List Nat)).length - 50) false
       ∧ (queueAudioN stReg "s" (List.replicate 60 [7])).2.audio_send_queues "s" =
          some ⟨((List.replicate 60 ([7] : List Nat)).take 50).map audioItem, 50⟩) :=
  ⟨rfl, c5_queue_audio_capacity stReg "s" (List.replicate 60 [7]) rfl⟩

/-! ## C3: media queue overflow policy -/

/-- A successful queue_image call rewritten through the setter. -/
theorem queue_image_success (st : GState) (sid : SessionID) (d : List Nat)
    (mime : String) (l : List QItem) (c : Nat)
    (h : st.media_send_queues sid = some ⟨l, c⟩) (hfull : l.length < c) :
    queue_image st sid d mime = (true, st.setMediaQ sid ⟨l ++ [imageItem d mime], c⟩) := by
  simp [queue_image, h, BQueue.put_nowait, hfull, imageItem, GState.setMediaQ]

/-- A queue_image call on a full media queue fails (QueueFull, the frame is
dropped) and changes nothing. -/
theorem queue_image_full (st : GState) (sid : SessionID) (d : List Nat)
    (mime : String) (l : List QItem) (c : Nat)
    (h : st.media_send_queues sid = some ⟨l, c⟩) (hfull : ¬ l.length < c) :
    queue_image st sid d mime = (false, st) := by
  simp [queue_image, h, BQueue.put_nowait, hfull]

/-- On a full media queue, every call of a burst fails and the state is
untouched: the frames already queued are kept, all new ones are dropped. -/
theorem queueImageN_full (datas : List (List Nat)) :
    ∀ (st : GState) (sid : SessionID) (mime : String) (l : List QItem) (c : Nat),
      st.media_send_queues sid = some ⟨l, c⟩ → ¬ l.length < c →
      queueImageN st sid mime datas = (List.replicate datas.length false, st) := by
  induction datas with
  | nil =>
    intro st sid mime l c h hfull
    simp [queueImageN]
  | cons d rest ih =>
    intro st sid mime l c h hfull
    have hq := queue_image_full st sid d mime l c h hfull
    simp [queueImageN, hq, ih st sid mime l c h hfull, List.replicate_succ]

/-- One mediaProcessorStep on a registered session with a non-empty media
queue pops the front item and applies its branch effect. -/
theorem mediaProcessorStep_pop (st : GState) (sid : SessionID) (sendOk : Bool)
    (item : QItem) (rest : List QItem) (cap : Nat)
    (hs : (st.sessions sid).isSome) (hq : st.media_send_queues sid = some ⟨item :: rest, cap⟩) :
    mediaProcessorStep st sid sendOk =
      applyEffect (st.setMediaQ sid ⟨rest, cap⟩) sid (mediaIterEffect item sendOk) := by
  simp [mediaProcessorStep, hs, hq, GState.setMediaQ]

/-- One audioProcessorStep on a registered session with a non-empty audio
queue pops the front item and applies its branch effect. -/
theorem audioProcessorStep_pop (st : GState) (sid : SessionID) (sendOk : Bool)
    (item : QItem) (rest : List QItem) (cap : Nat)
    (hs : (st.sessions sid).isSome) (hq : st.audio_send_queues sid = some ⟨item :: rest, cap⟩) :
    audioProcessorStep st sid sendOk =
      applyEffect (st.setAudioQ sid ⟨rest, cap⟩) sid (audioIterEffect item sendOk) := by
  simp [audioProcessorStep, hs, hq, GState.setAudioQ]

/-- The effect computed for a frame queued by queue_image, when the send
succeeds: the frame is forwarded as realtime video input. -/
theorem mediaIterEffect_imageItem (d : List Nat) :
    mediaIterEffect (imageItem d "image/jpeg") true =
      { sent := some (SendMsg.realtimeVideo d "image/jpeg"), imagesSentInc := 1 } := by
  simp [mediaIterEffect, imageItem, containsSub]

/-- Counterexample to C3 as stated: on a fresh session, enqueue frame [1]
then frame [2] with no processor draining.  The first call succeeds, the
second fails, the queue retains the FIRST frame, and one processor
iteration forwards frame [1] to the live connection - not the most recently
enqueued frame [2], which was dropped. -/
theorem c3_counterexample :
    stReg.media_send_queues "s" = some ⟨[], 1⟩
    ∧ (queue_image stReg "s" [1] "image/jpeg").1 = true
    ∧ (queue_image (queue_image stReg "s" [1] "image/jpeg").2 "s" [2] "image/jpeg").1 = false
    ∧ (queue_image (queue_image stReg "s" [1] "image/jpeg").2 "s" [2] "image/jpeg").2.media_send_queues "s"
        = some ⟨[imageItem [1] "image/jpeg"], 1⟩
    ∧ imageItem [1] "image/jpeg" ≠ imageItem [2] "image/jpeg"
    ∧ (mediaProcessorStep
        (queue_image (queue_image stReg "s" [1] "image/jpeg").2 "s" [2] "image/jpeg").2
        "s" true).sentLog = [SendMsg.realtimeVideo [1] "image/jpeg"] := by
  refine ⟨rfl, rfl, rfl, rfl, by decide, rfl⟩

/-- C3 amended: with the media queue fresh (capacity 1) and no processor
draining it, only the FIRST enqueued frame of a burst is retained and
eventually forwarded to the live connection; every LATER frame is dropped
(its queue_image call returns false and leaves the queue unchanged).  The
code drops the newest frame on overflow, not the oldest. -/
theorem c3_media_queue_keeps_first (st : GState) (sid : SessionID)
    (d : List Nat) (rest : List (List Nat))
    (hs : (st.sessions sid).isSome)
    (hq : st.media_send_queues sid = some ⟨[], 1⟩) :
    (queueImageN st sid "image/jpeg" (d :: rest)).1 =
      true :: List.replicate rest.length false
    ∧ (queueImageN st sid "image/jpeg" (d :: rest)).2.media_send_queues sid =
        some ⟨[imageItem d "image/jpeg"], 1⟩
    ∧ (mediaProcessorStep (queueImageN st sid "image/jpeg" (d :: rest)).2 sid true).sentLog =
        st.sentLog ++ [SendMsg.realtimeVideo d "image/jpeg"]
    ∧ (mediaProcessorStep (queueImageN st sid "image/jpeg" (d :: rest)).2 sid
        true).media_send_queues sid = some ⟨[], 1⟩ := by
  have hq1 := queue_image_success st sid d "image/jpeg" [] 1 hq (by simp)
  have hfull : ¬ ([imageItem d "image/jpeg"].length < 1) := by simp
  have h2 := GState.setMediaQ_lookup st sid ⟨[imageItem d "image/jpeg"], 1⟩
  have hrest := queueImageN_full rest (st.setMediaQ sid ⟨[imageItem d "image/jpeg"], 1⟩)
    sid "image/jpeg" [imageItem d "image/jpeg"] 1 (by simpa using h2) hfull
  have hrun : queueImageN st sid "image/jpeg" (d :: rest) =
      (true :: List.replicate rest.length false,
       st.setMediaQ sid ⟨[imageItem d "image/jpeg"], 1⟩) := by
    simp [queueImageN, hq1, hrest]
  have hsess : ((st.setMediaQ sid ⟨[imageItem d "image/jpeg"], 1⟩).sessions sid).isSome := by
    simpa [GState.setMediaQ] using hs
  have hpop := mediaProcessorStep_pop (st.setMediaQ sid ⟨[imageItem d "image/jpeg"], 1⟩)
    sid true (imageItem d "image/jpeg") [] 1 hsess (by simpa using h2)
  refine ⟨by rw [hrun], by rw [hrun]; simpa using h2, ?_, ?_⟩
  · rw [hrun]
    simp only [hpop, mediaIterEffect_imageItem, applyEffect]
    simp [GState.setMediaQ]
  · rw [hrun]
    simp only [hpop, mediaIterEffect_imageItem, applyEffect]
    simp [GState.setMediaQ]

/-- Witness for the amended C3 on a concrete three-frame burst. -/
theorem c3_media_queue_keeps_first_witness :
    ((stReg.sessions "s").isSome ∧ stReg.media_send_queues "s" = some ⟨[], 1⟩)
    ∧ ((queueImageN stReg "s" "image/jpeg" ([5] :: [[6], [7]])).1 =
        true :: List.replicate [[6], [7]].length false
       ∧ (queueImageN stReg "s" "image/jpeg" ([5] :: [[6], [7]])).2.media_send_queues "s" =
          some ⟨[imageItem [5] "image/jpeg"], 1⟩
       ∧ (mediaProcessorStep (queueImageN stReg "s" "image/jpeg" ([5] :: [[6], [7]])).2 "s"
            true).sentLog = stReg.sentLog ++ [SendMsg.realtimeVideo [5] "image/jpeg"]
       ∧ (mediaProcessorStep (queueImageN stReg "s" "image/jpeg" ([5] :: [[6], [7]])).2 "s"
            true).media_send_queues "s" = some ⟨[], 1⟩) :=
  ⟨⟨rfl, rfl⟩, c3_media_queue_keeps_first stReg "s" [5] [[6], [7]] rfl rfl⟩

/-! ## C9: stat counters bumped at enqueue and at send -/

/-- The effect computed for a chunk queued by queue_audio, when the send
succeeds: forwarded as realtime audio input and audio_sent bumped. -/
theorem audioIterEffect_audioItem (d : List Nat) :
    audioIterEffect (audioItem d) true =
      { sent := some (SendMsg.realtimeAudio d "audio/pcm"), audioSentInc := 1 } := by
  simp [audioIterEffect, audioItem, containsSub]

/-- C9: a frame delivered through the WebRTC frame handlers and then
forwarded by the matching send processor bumps its counter twice: once at
enqueue time in the handler and once at send time in the processor.  For an
audio frame audio_sent rises by 2, and likewise images_sent for a video
frame. -/
theorem c9_stat_double_increment (st : GState) (sid : SessionID) (d : List Nat)
    (s : Stats) (hs : (st.sessions sid).isSome)
    (hq : st.audio_send_queues sid = some ⟨[], 50⟩)
    (hm : st.media_send_queues sid = some ⟨[], 1⟩)
    (hst : st.session_stats sid = some s) :
    (audioProcessorStep (handle_audio_frame st sid d) sid true).session_stats sid =
      some { s with audio_sent := s.audio_sent + 2 }
    ∧ (mediaProcessorStep (handle_video_frame st sid d) sid true).session_stats sid =
      some { s with images_sent := s.images_sent + 2 } := by
  constructor
  · have h1 := queue_audio_success st sid d [] 50 hq (by simp)
    have hst1 : handle_audio_frame st sid d =
        { st.setAudioQ sid ⟨[audioItem d], 50⟩ with
          session_stats := Function.update st.session_stats sid
            (some { s with audio_sent := s.audio_sent + 1 }) } := by
      simp [handle_audio_frame, h1, GState.setAudioQ, hst]
    have hq1 : (handle_audio_frame st sid d).audio_send_queues sid =
        some ⟨[audioItem d], 50⟩ := by
      rw [hst1]; simp [GState.setAudioQ]
    have hs1 : ((handle_audio_frame st sid d).sessions sid).isSome := by
      rw [hst1]; simpa [GState.setAudioQ] using hs
    have hpop := audioProcessorStep_pop (handle_audio_frame st sid d) sid true
      (audioItem d) [] 50 hs1 hq1
    rw [hpop, audioIterEffect_audioItem]
    have hstats1 : ((handle_audio_frame st sid d).setAudioQ sid ⟨[], 50⟩).session_stats sid =
        some { s with audio_sent := s.audio_sent + 1 } := by
      rw [hst1]; simp [GState.setAudioQ]
    simp [applyEffect, hstats1]
  · have h1 := queue_image_success st sid d "image/jpeg" [] 1 hm (by simp)
    have hst1 : handle_video_frame st sid d =
        { st.setMediaQ sid ⟨[imageItem d "image/jpeg"], 1⟩ with
          session_stats := Function.update st.session_stats sid
            (some { s with images_sent := s.images_sent + 1 }) } := by
      simp [handle_video_frame, h1, GState.setMediaQ, hst]
    have hq1 : (handle_video_frame st sid d).media_send_queues sid =
        some ⟨[imageItem d "image/jpeg"], 1⟩ := by
      rw [hst1]; simp [GState.setMediaQ]
    have hs1 : ((handle_video_frame st sid d).sessions sid).isSome := by
      rw [hst1]; simpa [GState.setMediaQ] using hs
    have hpop := mediaProcessorStep_pop (handle_video_frame st sid d) sid true
      (imageItem d "image/jpeg") [] 1 hs1 hq1
    rw [hpop, mediaIterEffect_imageItem]
    have hstats1 : ((handle_video_frame st sid d).setMediaQ sid ⟨[], 1⟩).session_stats sid =
        some { s with images_sent := s.images_sent + 1 } := by
      rw [hst1]; simp [GState.setMediaQ]
    simp [applyEffect, hstats1]

/-- Witness for C9: on a freshly created session one audio frame ends with
audio_sent two, one video frame with images_sent two. -/
theorem c9_stat_double_increment_witness :
    ((stReg.sessions "s").isSome
     ∧ stReg.audio_send_queues "s" = some ⟨[], 50⟩
     ∧ stReg.media_send_queues "s" = some ⟨[], 1⟩
     ∧ stReg.session_stats "s" = some ⟨0, 0, 0, 0⟩)
    ∧ ((audioProcessorStep (handle_audio_frame stReg "s" [9]) "s" true).session_stats "s" =
        some { (⟨0, 0, 0, 0⟩ : Stats) with audio_sent := (⟨0, 0, 0, 0⟩ : Stats).audio_sent + 2 }
       ∧ (mediaProcessorStep (handle_video_frame stReg "s" [9]) "s" true).session_stats "s" =
        some { (⟨0, 0, 0, 0⟩ : Stats) with images_sent := (⟨0, 0, 0, 0⟩ : Stats).images_sent + 2 }) :=
  ⟨⟨rfl, rfl, rfl, rfl⟩,
   c9_stat_double_increment stReg "s" [9] ⟨0, 0, 0, 0⟩ rfl rfl rfl rfl⟩

/-! ## C10: handling of non-matching queue items -/

/-- Items that _process_audio_queue lets fall through silently: anything
that is neither a str nor a dict, and dicts whose mime_type IS a string but
does not contain audio.  A dict with a missing or non-string mime_type is
NOT silent: reading it raises into the except branch. -/
def audioSilent (item : QItem) : Bool :=
  match item with
  | QItem.text _ => false
  | QItem.dict d =>
    match d.mime_type with
    | some (MimeVal.s m) => !containsSub "audio" m
    | _ => false
  | QItem.other => true

/-- Items that _process_media_queue lets fall through silently: strs,
non-dict non-str objects, and dicts whose mime_type is a string not
containing image. -/
def mediaSilent (item : QItem) : Bool :=
  match item with
  | QItem.text _ => true
  | QItem.dict d =>
    match d.mime_type with
    | some (MimeVal.s m) => !containsSub "image" m
    | _ => false
  | QItem.other => true

/-- Whether the session has an on_error callback registered (what
_handle_error checks before invoking it). -/
def onErrPresent (st : GState) (sid : SessionID) : Bool :=
  match st.callbacks sid with
  | some cb => cb.on_error
  | none => false

/-- A silent item produces the empty effect in the audio processor. -/
theorem audioIterEffect_silent (item : QItem) (sendOk : Bool)
    (h : audioSilent item = true) : audioIterEffect item sendOk = {} := by
  cases item with
  | text s => simp [audioSilent] at h
  | other => simp [audioIterEffect]
  | dict d =>
    cases hm : d.mime_type with
    | none => simp [audioSilent, hm] at h
    | some mv =>
      cases mv with
      | nonstring => simp [audioSilent, hm] at h
      | s m =>
        simp [audioSilent, hm] at h
        simp [audioIterEffect, hm, h]

/-- A silent item produces the empty effect in the media processor. -/
theorem mediaIterEffect_silent (item : QItem) (sendOk : Bool)
    (h : mediaSilent item = true) : mediaIterEffect item sendOk = {} := by
  cases item with
  | text s => simp [mediaIterEffect]
  | other => simp [mediaIterEffect]
  | dict d =>
    cases hm : d.mime_type with
    | none => simp [mediaSilent, hm] at h
    | some mv =>
      cases mv with
      | nonstring => simp [mediaSilent, hm] at h
      | s m =>
        simp [mediaSilent, hm] at h
        simp [mediaIterEffect, hm, h]

/-- The empty effect changes nothing observable. -/
theorem applyEffect_empty (st : GState) (sid : SessionID) :
    (applyEffect st sid {}).session_stats sid = st.session_stats sid
    ∧ (applyEffect st sid {}).sentLog = st.sentLog
    ∧ (applyEffect st sid {}).errorCalls = st.errorCalls
    ∧ (applyEffect st sid {}).audio_send_queues = st.audio_send_queues
    ∧ (applyEffect st sid {}).media_send_queues = st.media_send_queues := by
  cases hstats : st.session_stats sid with
  | none => simp [applyEffect, hstats]
  | some s => simp [applyEffect, hstats]

/-- An effect that only ran the except branch leaves everything unchanged
except for one on_error invocation when such a callback is registered. -/
theorem applyEffect_errorOnly (st : GState) (sid : SessionID) :
    (applyEffect st sid { errorCb := true }).session_stats sid = st.session_stats sid
    ∧ (applyEffect st sid { errorCb := true }).sentLog = st.sentLog
    ∧ (applyEffect st sid { errorCb := true }).errorCalls =
        st.errorCalls + (if onErrPresent st sid then 1 else 0)
    ∧ (applyEffect st sid { errorCb := true }).audio_send_queues = st.audio_send_queues
    ∧ (applyEffect st sid { errorCb := true }).media_send_queues = st.media_send_queues := by
  cases hstats : st.session_stats sid with
  | none => simp [applyEffect, hstats, onErrPresent]
  | some s => simp [applyEffect, hstats, onErrPresent]

/-- Concrete state for the C10 counterexample: a fresh session whose audio
queue holds one dict lacking the mime_type key. -/
def stC10 : GState := stReg.setAudioQ "s" ⟨[QItem.dict ⟨some [0], none⟩], 50⟩

/-- Concrete state for the C10 witness: a fresh session whose audio queue
holds one dict with an image mime type (not matching the audio shape). -/
def stC10w : GState :=
  stReg.setAudioQ "s" ⟨[QItem.dict ⟨some [3], some (MimeVal.s "image/jpeg")⟩], 50⟩

/-- Counterexample to C10 as stated: a dict lacking the mime_type key is
neither a string nor a dict whose mime_type contains audio, yet it is NOT
silently discarded: reading item mime_type raises KeyError, which the
except branch routes to the session's error callback (one on_error
invocation), while nothing is forwarded. -/
theorem c10_counterexample :
    stC10.callbacks "s" = some cbSvc
    ∧ cbSvc.on_error = true
    ∧ stC10.audio_send_queues "s" = some ⟨[QItem.dict ⟨some [0], none⟩], 50⟩
    ∧ stC10.errorCalls = 0
    ∧ (audioProcessorStep stC10 "s" true).errorCalls = 1
    ∧ (audioProcessorStep stC10 "s" true).sentLog = [] :=
  ⟨rfl, rfl, rfl, rfl, rfl, rfl⟩

/-- C10 amended: a dequeued item that is a non-str non-dict object, or a
dict whose mime_type is a string not containing audio (image for the media
processor), is silently discarded: nothing is forwarded, no counter
changes, the error callback is not invoked, and the loop continues with the
popped queue.  A dict with NO mime_type key, however, raises KeyError in
the matching test and is routed to the error callback (when registered)
before the loop continues. -/
theorem c10_nonmatching_items (st : GState) (sid : SessionID) (item : QItem)
    (rest : List QItem) (cap : Nat) (sendOk : Bool) (dta : Option (List Nat))
    (hs : (st.sessions sid).isSome) :
    (audioSilent item = true → st.audio_send_queues sid = some ⟨item :: rest, cap⟩ →
      (audioProcessorStep st sid sendOk).audio_send_queues sid = some ⟨rest, cap⟩
      ∧ (audioProcessorStep st sid sendOk).sentLog = st.sentLog
      ∧ (audioProcessorStep st sid sendOk).errorCalls = st.errorCalls
      ∧ (audioProcessorStep st sid sendOk).session_stats sid = st.session_stats sid)
    ∧ (mediaSilent item = true → st.media_send_queues sid = some ⟨item :: rest, cap⟩ →
      (mediaProcessorStep st sid sendOk).media_send_queues sid = some ⟨rest, cap⟩
      ∧ (mediaProcessorStep st sid sendOk).sentLog = st.sentLog
      ∧ (mediaProcessorStep st sid sendOk).errorCalls = st.errorCalls
      ∧ (mediaProcessorStep st sid sendOk).session_stats sid = st.session_stats sid)
    ∧ (item = QItem.dict ⟨dta, none⟩ →
        st.audio_send_queues sid = some ⟨item :: rest, cap⟩ →
      (audioProcessorStep st sid sendOk).audio_send_queues sid = some ⟨rest, cap⟩
      ∧ (audioProcessorStep st sid sendOk).sentLog = st.sentLog
      ∧ (audioProcessorStep st sid sendOk).errorCalls =
          st.errorCalls + (if onErrPresent st sid then 1 else 0)) := by
  refine ⟨?_, ?_, ?_⟩
  · intro hsil hq
    have hpop := audioProcessorStep_pop st sid sendOk item rest cap hs hq
    rw [hpop, audioIterEffect_silent item sendOk hsil]
    have he := applyEffect_empty (st.setAudioQ sid ⟨rest, cap⟩) sid
    refine ⟨?_, ?_, ?_, ?_⟩
    · rw [he.2.2.2.1]; exact GState.setAudioQ_lookup st sid ⟨rest, cap⟩
    · rw [he.2.1]; rfl
    · rw [he.2.2.1]; rfl
    · rw [he.1]; rfl
  · intro hsil hq
    have hpop := mediaProcessorStep_pop st sid sendOk item rest cap hs hq
    rw [hpop, mediaIterEffect_silent item sendOk hsil]
    have he := applyEffect_empty (st.setMediaQ sid ⟨rest, cap⟩) sid
    refine ⟨?_, ?_, ?_, ?_⟩
    · rw [he.2.2.2.2]; exact GState.setMediaQ_lookup st sid ⟨rest, cap⟩
    · rw [he.2.1]; rfl
    · rw [he.2.2.1]; rfl
    · rw [he.1]; rfl
  · intro hitem hq
    have hpop := audioProcessorStep_pop st sid sendOk item rest cap hs hq
    have heff : audioIterEffect item sendOk = { errorCb := true } := by
      rw [hitem]; simp [audioIterEffect]
    rw [hpop, heff]
    have he := applyEffect_errorOnly (st.setAudioQ sid ⟨rest, cap⟩) sid
    refine ⟨?_, ?_, ?_⟩
    · rw [he.2.2.2.1]; exact GState.setAudioQ_lookup st sid ⟨rest, cap⟩
    · rw [he.2.1]; rfl
    · rw [he.2.2.1]
      have : onErrPresent (st.setAudioQ sid ⟨rest, cap⟩) sid = onErrPresent st sid := rfl
      rw [this]; rfl

/-- Witness for the amended C10 on concrete non-matching items: a
wrong-mime dict in the audio queue and a str in the media queue, both
silently skipped, plus a mime-less dict hitting the error callback. -/
theorem c10_nonmatching_items_witness :
    (audioSilent (QItem.dict ⟨some [3], some (MimeVal.s "image/jpeg")⟩) = true
     ∧ (stC10w.sessions "s").isSome
     ∧ stC10w.audio_send_queues "s" =
        some ⟨[QItem.dict ⟨some [3], some (MimeVal.s "image/jpeg")⟩], 50⟩)
    ∧ (audioProcessorStep stC10w "s" true).audio_send_queues "s" = some ⟨[], 50⟩
    ∧ (audioProcessorStep stC10w "s" true).sentLog = stC10w.sentLog
    ∧ (audioProcessorStep stC10w "s" true).errorCalls = stC10w.errorCalls
    ∧ (audioProcessorStep stC10w "s" true).session_stats "s" = stC10w.session_stats "s" :=
  ⟨⟨rfl, rfl, rfl⟩,
   ((c10_nonmatching_items stC10w "s" (QItem.dict ⟨some [3], some (MimeVal.s "image/jpeg")⟩)
      [] 50 true none rfl).1 rfl rfl)⟩

/-! ## Teardown lemmas shared by C1, C2 and C8 -/

/-- The state carried by a teardown outcome, whether it completed or
raised. -/
def tdState : Except GState GState → GState
  | Except.ok s => s
  | Except.error s => s

/-- Whether a teardown outcome completed without raising. -/
def tdOk : Except GState GState → Bool
  | Except.ok _ => true
  | Except.error _ => false

/-- Everything except the task table is untouched by the teardown body. -/
def sameButTasks (a b : GState) : Prop :=
  a.sessions = b.sessions ∧ a.callbacks = b.callbacks
  ∧ a.response_listeners = b.response_listeners ∧ a.send_processor = b.send_processor
  ∧ a.audio_send_queues = b.audio_send_queues ∧ a.media_send_queues = b.media_send_queues
  ∧ a.contexts = b.contexts ∧ a.webrtc_managers = b.webrtc_managers
  ∧ a.session_stats = b.session_stats ∧ a.fresh = b.fresh
  ∧ a.sentLog = b.sentLog ∧ a.errorCalls = b.errorCalls ∧ a.redis = b.redis

theorem sameButTasks_markDone (st : GState) (t : Nat) :
    sameButTasks (st.markDone t) st := by
  simp [sameButTasks, GState.markDone]

theorem sameButTasks_trans (a b c : GState)
    (h1 : sameButTasks a b) (h2 : sameButTasks b c) : sameButTasks a c := by
  obtain ⟨x1, x2, x3, x4, x5, x6, x7, x8, x9, x10, x11, x12, x13⟩ := h1
  obtain ⟨y1, y2, y3, y4, y5, y6, y7, y8, y9, y10, y11, y12, y13⟩ := h2
  exact ⟨x1.trans y1, x2.trans y2, x3.trans y3, x4.trans y4, x5.trans y5,
    x6.trans y6, x7.trans y7, x8.trans y8, x9.trans y9, x10.trans y10,
    x11.trans y11, x12.trans y12, x13.trans y13⟩

theorem sameButTasks_refl (a : GState) : sameButTasks a a := by
  simp [sameButTasks]

/-- Step 4 never changes the state: it either returns or raises as-is. -/
theorem closeCtx_state (env : TearEnv) (st : GState) (sid : SessionID) :
    tdState (closeCtx env st sid) = st := by
  unfold closeCtx
  by_cases hC : env.contextCloseRaises && (st.contexts sid).isSome
  · simp [hC, tdState]
  · simp [hC, tdState]

/-- Steps 3 and 4 change only the task table. -/
theorem closeProcs_sameButTasks (env : TearEnv) (st : GState) (sid : SessionID) :
    sameButTasks (tdState (closeProcs env st sid)) st := by
  unfold closeProcs
  cases hp : st.send_processor sid with
  | none => rw [closeCtx_state]; exact sameButTasks_refl st
  | some p =>
    obtain ⟨ta, tm⟩ := p
    cases hA : env.awaitAudioRaises with
    | true =>
      simp [hA, tdState]
      exact sameButTasks_markDone st ta
    | false =>
      cases hM : env.awaitMediaRaises with
      | true =>
        simp [hA, hM, tdState]
        exact sameButTasks_trans _ _ _ (sameButTasks_markDone (st.markDone ta) tm)
          (sameButTasks_markDone st ta)
      | false =>
        simp only [hA, hM, Bool.false_eq_true, if_false]
        rw [closeCtx_state]
        exact sameButTasks_trans _ _ _ (sameButTasks_markDone (st.markDone ta) tm)
          (sameButTasks_markDone st ta)

/-- The whole teardown body changes only the task table. -/
theorem closeBody_sameButTasks (env : TearEnv) (st : GState) (sid : SessionID) :
    sameButTasks (tdState (closeBody env st sid)) st := by
  unfold closeBody
  by_cases hW : env.webrtcCloseRaises && (st.webrtc_managers sid).isSome
  · simp [hW, tdState]
    exact sameButTasks_refl st
  · simp only [hW, if_false, Bool.not_eq_true] at *
    rw [if_neg (by simp [hW])]
    cases hl : st.response_listeners sid with
    | none => exact closeProcs_sameButTasks env st sid
    | some t =>
      cases hL : env.awaitListenerRaises with
      | true =>
        simp [hL, tdState]
        exact sameButTasks_markDone st t
      | false =>
        simp only [hL, Bool.false_eq_true, if_false]
        exact sameButTasks_trans _ _ _ (closeProcs_sameButTasks env (st.markDone t) sid)
          (sameButTasks_markDone st t)

/-- Marking one task done then another leaves both done. -/
theorem markDone_both (st : GState) (ta tm : Nat) :
    ((st.markDone ta).markDone tm).tasks ta = some TaskStatus.done
    ∧ ((st.markDone ta).markDone tm).tasks tm = some TaskStatus.done := by
  constructor
  · by_cases h : ta = tm
    · simp [GState.markDone, h]
    · simp [GState.markDone, Function.update_noteq h]
  · simp [GState.markDone]

/-- A task already done stays done through markDone. -/
theorem markDone_mono (st : GState) (t u : Nat)
    (h : st.tasks t = some TaskStatus.done) :
    (st.markDone u).tasks t = some TaskStatus.done := by
  by_cases he : t = u
  · simp [GState.markDone, he]
  · simp [GState.markDone, Function.update_noteq he, h]

/-- A task already done stays done through steps 3 and 4. -/
theorem closeProcs_tasks_mono (env : TearEnv) (st : GState) (sid : SessionID)
    (t : Nat) (h : st.tasks t = some TaskStatus.done) :
    (tdState (closeProcs env st sid)).tasks t = some TaskStatus.done := by
  unfold closeProcs
  cases hp : st.send_processor sid with
  | none => rw [closeCtx_state]; exact h
  | some p =>
    obtain ⟨ta, tm⟩ := p
    cases hA : env.awaitAudioRaises with
    | true =>
      simp [hA, tdState]
      exact markDone_mono st t ta h
    | false =>
      cases hM : env.awaitMediaRaises with
      | true =>
        simp [hA, hM, tdState]
        exact markDone_mono _ t tm (markDone_mono st t ta h)
      | false =>
        simp only [hA, hM, Bool.false_eq_true, if_false]
        rw [closeCtx_state]
        exact markDone_mono _ t tm (markDone_mono st t ta h)

/-- Unless awaiting the audio task raised first, steps 3 and 4 leave both
send-processor tasks terminated. -/
theorem closeProcs_tasks_done (env : TearEnv) (st : GState) (sid : SessionID)
    (hA : env.awaitAudioRaises = false) (ta tm : Nat)
    (hp : st.send_processor sid = some (ta, tm)) :
    (tdState (closeProcs env st sid)).tasks ta = some TaskStatus.done
    ∧ (tdState (closeProcs env st sid)).tasks tm = some TaskStatus.done := by
  unfold closeProcs
  rw [hp]
  cases hM : env.awaitMediaRaises with
  | true =>
    simp [hA, hM, tdState]
    exact markDone_both st ta tm
  | false =>
    simp only [hA, hM, Bool.false_eq_true, if_false]
    rw [closeCtx_state]
    exact markDone_both st ta tm

/-- Unless the WebRTC close, the listener await or the audio-task await
raised, the teardown body terminates the response listener and both
send-processor tasks. -/
theorem closeBody_tasks_done (env : TearEnv) (st : GState) (sid : SessionID)
    (hW : env.webrtcCloseRaises = false) (hL : env.awaitListenerRaises = false)
    (hA : env.awaitAudioRaises = false) :
    (∀ t, st.response_listeners sid = some t →
      (tdState (closeBody env st sid)).tasks t = some TaskStatus.done)
    ∧ (∀ ta tm, st.send_processor sid = some (ta, tm) →
      (tdState (closeBody env st sid)).tasks ta = some TaskStatus.done
      ∧ (tdState (closeBody env st sid)).tasks tm = some TaskStatus.done) := by
  unfold closeBody
  rw [hW]
  rw [if_neg (by simp)]
  constructor
  · intro t ht
    rw [ht]
    simp only [hL, Bool.false_eq_true, if_false]
    exact closeProcs_tasks_mono env (st.markDone t) sid t (by simp [GState.markDone])
  · intro ta tm hp
    cases hl : st.response_listeners sid with
    | none => exact closeProcs_tasks_done env st sid hA ta tm hp
    | some t =>
      simp only [hL, Bool.false_eq_true, if_false]
      exact closeProcs_tasks_done env (st.markDone t) sid hA ta tm
        (by simpa [GState.markDone] using hp)

/-- Step 4 completes when the context close does not raise. -/
theorem closeCtx_isOk (env : TearEnv) (st : GState) (sid : SessionID)
    (hC : env.contextCloseRaises = false) : tdOk (closeCtx env st sid) = true := by
  simp [closeCtx, hC, tdOk]

/-- Steps 3 and 4 complete when no await or context close raises. -/
theorem closeProcs_isOk (env : TearEnv) (st : GState) (sid : SessionID)
    (hA : env.awaitAudioRaises = false) (hM : env.awaitMediaRaises = false)
    (hC : env.contextCloseRaises = false) : tdOk (closeProcs env st sid) = true := by
  unfold closeProcs
  cases hp : st.send_processor sid with
  | none => exact closeCtx_isOk env st sid hC
  | some p =>
    obtain ⟨ta, tm⟩ := p
    simp only [hA, hM, Bool.false_eq_true, if_false]
    exact closeCtx_isOk env _ sid hC

/-- With no step raising, the teardown body completes normally. -/
theorem closeBody_isOk (env : TearEnv) (st : GState) (sid : SessionID)
    (hW : env.webrtcCloseRaises = false) (hL : env.awaitListenerRaises = false)
    (hA : env.awaitAudioRaises = false) (hM : env.awaitMediaRaises = false)
    (hC : env.contextCloseRaises = false) : tdOk (closeBody env st sid) = true := by
  unfold closeBody
  rw [hW]
  rw [if_neg (by simp)]
  cases hl : st.response_listeners sid with
  | none => exact closeProcs_isOk env st sid hA hM hC
  | some t =>
    simp only [hL, Bool.false_eq_true, if_false]
    exact closeProcs_isOk env _ sid hA hM hC

/-- For a registered session, close_session always ends by clearing every
store on whatever state the teardown body reached. -/
theorem close_session_state (env : TearEnv) (st : GState) (sid : SessionID)
    (h : (st.sessions sid).isSome) :
    (close_session env st sid).2 =
      clear_session (tdState (closeBody env st sid)) sid := by
  unfold close_session
  rw [if_pos h]
  cases hb : closeBody env st sid <;> simp [tdState]

/-- For a registered session, close_session reports true exactly when the
teardown body did not raise. -/
theorem close_session_fst (env : TearEnv) (st : GState) (sid : SessionID)
    (h : (st.sessions sid).isSome) :
    (close_session env st sid).1 = tdOk (closeBody env st sid) := by
  unfold close_session
  rw [if_pos h]
  cases hb : closeBody env st sid <;> simp [tdOk]

/-- close_session on an unknown SessionID answers false and changes
nothing. -/
theorem close_session_absent (env : TearEnv) (st : GState) (sid : SessionID)
    (h : st.sessions sid = none) : close_session env st sid = (false, st) := by
  unfold close_session
  rw [if_neg (by simp [h])]

/-- clear_session removes the session from each of the nine stores and
leaves the task table alone. -/
theorem clear_session_lookups (st : GState) (sid : SessionID) :
    (clear_session st sid).sessions sid = none
    ∧ (clear_session st sid).callbacks sid = none
    ∧ (clear_session st sid).response_listeners sid = none
    ∧ (clear_session st sid).send_processor sid = none
    ∧ (clear_session st sid).audio_send_queues sid = none
    ∧ (clear_session st sid).media_send_queues sid = none
    ∧ (clear_session st sid).contexts sid = none
    ∧ (clear_session st sid).webrtc_managers sid = none
    ∧ (clear_session st sid).session_stats sid = none
    ∧ (clear_session st sid).tasks = st.tasks := by
  simp [clear_session]

/-! ## C1: teardown totality -/

/-- Teardown environment in which the WebRTCManager.close call raises. -/
def tearW : TearEnv := ⟨true, false, false, false, false⟩

/-- Counterexample to C1 as stated: on a freshly created session, if the
WebRTC close step raises, close_session returns with every store entry for
the session removed, yet the response-listener task (1) and both
send-processor tasks (2, 3) were never cancelled and are still running. -/
theorem c1_counterexample :
    stReg.sessions "s" = some ()
    ∧ stReg.response_listeners "s" = some 1
    ∧ stReg.send_processor "s" = some (2, 3)
    ∧ (close_session tearW stReg "s").2.sessions "s" = none
    ∧ (close_session tearW stReg "s").2.response_listeners "s" = none
    ∧ (close_session tearW stReg "s").2.send_processor "s" = none
    ∧ (close_session tearW stReg "s").2.contexts "s" = none
    ∧ (close_session tearW stReg "s").2.webrtc_managers "s" = none
    ∧ (close_session tearW stReg "s").2.tasks 1 = some TaskStatus.running
    ∧ (close_session tearW stReg "s").2.tasks 2 = some TaskStatus.running
    ∧ (close_session tearW stReg "s").2.tasks 3 = some TaskStatus.running :=
  ⟨rfl, rfl, rfl, rfl, rfl, rfl, rfl, rfl, rfl, rfl, rfl⟩

/-- C1 amended: after close_session returns on a registered session, no
store entry for the SessionID remains, whatever exceptions the teardown
steps raised.  The three tasks, however, are guaranteed cancelled and
awaited only when neither the WebRTC close, nor the listener await, nor the
audio-task await raised; a step that raises skips all later cancellations
(the except branch only clears the stores), so tasks can be left running. -/
theorem c1_close_clears_stores (env : TearEnv) (st : GState) (sid : SessionID)
    (h : (st.sessions sid).isSome) :
    ((close_session env st sid).2.sessions sid = none
     ∧ (close_session env st sid).2.callbacks sid = none
     ∧ (close_session env st sid).2.response_listeners sid = none
     ∧ (close_session env st sid).2.send_processor sid = none
     ∧ (close_session env st sid).2.audio_send_queues sid = none
     ∧ (close_session env st sid).2.media_send_queues sid = none
     ∧ (close_session env st sid).2.contexts sid = none
     ∧ (close_session env st sid).2.webrtc_managers sid = none
     ∧ (close_session env st sid).2.session_stats sid = none)
    ∧ (env.webrtcCloseRaises = false → env.awaitListenerRaises = false →
       env.awaitAudioRaises = false →
       (∀ t, st.response_listeners sid = some t →
         (close_session env st sid).2.tasks t = some TaskStatus.done)
       ∧ (∀ ta tm, st.send_processor sid = some (ta, tm) →
         (close_session env st sid).2.tasks ta = some TaskStatus.done
         ∧ (close_session env st sid).2.tasks tm = some TaskStatus.done)) := by
  rw [close_session_state env st sid h]
  have hcl := clear_session_lookups (tdState (closeBody env st sid)) sid
  constructor
  · exact ⟨hcl.1, hcl.2.1, hcl.2.2.1, hcl.2.2.2.1, hcl.2.2.2.2.1, hcl.2.2.2.2.2.1,
      hcl.2.2.2.2.2.2.1, hcl.2.2.2.2.2.2.2.1, hcl.2.2.2.2.2.2.2.2.1⟩
  · intro hW hL hA
    rw [hcl.2.2.2.2.2.2.2.2.2]
    exact closeBody_tasks_done env st sid hW hL hA

/-- Witness for the amended C1: closing a freshly created session with no
step raising clears every store and terminates tasks 1, 2 and 3. -/
theorem c1_close_clears_stores_witness :
    (stReg.sessions "s").isSome
    ∧ (((close_session tearOk stReg "s").2.sessions "s" = none
       ∧ (close_session tearOk stReg "s").2.callbacks "s" = none
       ∧ (close_session tearOk stReg "s").2.response_listeners "s" = none
       ∧ (close_session tearOk stReg "s").2.send_processor "s" = none
       ∧ (close_session tearOk stReg "s").2.audio_send_queues "s" = none
       ∧ (close_session tearOk stReg "s").2.media_send_queues "s" = none
       ∧ (close_session tearOk stReg "s").2.contexts "s" = none
       ∧ (close_session tearOk stReg "s").2.webrtc_managers "s" = none
       ∧ (close_session tearOk stReg "s").2.session_stats "s" = none)
      ∧ (tearOk.webrtcCloseRaises = false → tearOk.awaitListenerRaises = false →
         tearOk.awaitAudioRaises = false →
         (∀ t, stReg.response_listeners "s" = some t →
           (close_session tearOk stReg "s").2.tasks t = some TaskStatus.done)
         ∧ (∀ ta tm, stReg.send_processor "s" = some (ta, tm) →
           (close_session tearOk stReg "s").2.tasks ta = some TaskStatus.done
           ∧ (close_session tearOk stReg "s").2.tasks tm = some TaskStatus.done))) :=
  ⟨rfl, c1_close_clears_stores tearOk stReg "s" rfl⟩

/-! ## C2: close idempotence -/

/-- Teardown environment in which awaiting the cancelled response listener
raises a non-CancelledError exception. -/
def tearL : TearEnv := ⟨false, true, false, false, false⟩

/-- Counterexample to C2 as stated: for a session that exists, when a
teardown step raises, the FIRST close_session call already returns false
(the claim demands true), and so do the second call and the service-level
close (the Redis key being absent for this in-memory-only session). -/
theorem c2_counterexample :
    stReg.sessions "s" = some ()
    ∧ (close_session tearL stReg "s").1 = false
    ∧ (close_session tearL (close_session tearL stReg "s").2 "s").1 = false
    ∧ (svc_close_session tearL stReg "s").1 = false :=
  ⟨rfl, rfl, rfl, rfl⟩

/-- C2 amended: provided no teardown step raises, closing an existing
session twice returns true then false, at the client and at the service
level, and never raises (all exceptions are swallowed by the except branch,
which makes the close total); when a step does raise, the first call
returns false instead of true.  A SessionID unknown to the sessions store
(in particular one unknown to every store) always yields false. -/
theorem c2_close_idempotent (env : TearEnv) (st : GState) (sid : SessionID)
    (h : (st.sessions sid).isSome)
    (hW : env.webrtcCloseRaises = false) (hL : env.awaitListenerRaises = false)
    (hA : env.awaitAudioRaises = false) (hM : env.awaitMediaRaises = false)
    (hC : env.contextCloseRaises = false) :
    (close_session env st sid).1 = true
    ∧ (close_session env (close_session env st sid).2 sid).1 = false
    ∧ (svc_close_session env st sid).1 = true
    ∧ (svc_close_session env (svc_close_session env st sid).2 sid).1 = false
    ∧ (∀ st2 : GState, st2.sessions sid = none → (close_session env st2 sid).1 = false) := by
  have h1 : (close_session env st sid).1 = true := by
    rw [close_session_fst env st sid h]
    exact closeBody_isOk env st sid hW hL hA hM hC
  have hcleared : (close_session env st sid).2.sessions sid = none := by
    rw [close_session_state env st sid h]
    exact (clear_session_lookups _ sid).1
  have h2 : (close_session env (close_session env st sid).2 sid).1 = false := by
    rw [close_session_absent env _ sid hcleared]
  refine ⟨h1, h2, ?_, ?_, ?_⟩
  · unfold svc_close_session
    simp [h1]
  · unfold svc_close_session
    have hs2 : ((close_session env st sid).2.sessions sid) = none := hcleared
    simp only []
    rw [close_session_absent env _ sid (by simpa using hs2)]
    simp
  · intro st2 h2n
    rw [close_session_absent env st2 sid h2n]

/-- Witness for the amended C2 on a freshly created session with a benign
teardown environment. -/
theorem c2_close_idempotent_witness :
    (stReg.sessions "s").isSome
    ∧ ((close_session tearOk stReg "s").1 = true
       ∧ (close_session tearOk (close_session tearOk stReg "s").2 "s").1 = false
       ∧ (svc_close_session tearOk stReg "s").1 = true
       ∧ (svc_close_session tearOk (svc_close_session tearOk stReg "s").2 "s").1 = false
       ∧ (∀ st2 : GState, st2.sessions "s" = none →
           (close_session tearOk st2 "s").1 = false)) :=
  ⟨rfl, c2_close_idempotent tearOk stReg "s" rfl rfl rfl rfl rfl rfl⟩

/-! ## C8: colliding SessionID closes the prior session first -/

/-- Creation environment whose collision-close hits a raising WebRTC close
but whose connect succeeds. -/
def envW8 : CreateEnv := ⟨tearW, false, ConnectOutcome.connOk⟩

/-- Projections of a successful create_webrtc_session run on a colliding
SessionID: the prior session is closed first (sequencing is definitional:
the registration operates on the closed state), then the fresh resources
are registered. -/
theorem create_ok_projs (env : CreateEnv) (st : GState) (sid : SessionID)
    (cb : CallbackSet) (h : (st.sessions sid).isSome)
    (hk : env.apiKeyMissing = false) (hc : env.connect = ConnectOutcome.connOk) :
    (create_webrtc_session env st sid cb).1 =
      CreateRes.manager ((close_session env.tear st sid).2.fresh + 4)
    ∧ (create_webrtc_session env st sid cb).2.sessions sid = some ()
    ∧ (create_webrtc_session env st sid cb).2.callbacks sid = some cb
    ∧ (create_webrtc_session env st sid cb).2.response_listeners sid =
        some ((close_session env.tear st sid).2.fresh + 1)
    ∧ (create_webrtc_session env st sid cb).2.send_processor sid =
        some ((close_session env.tear st sid).2.fresh + 2,
          (close_session env.tear st sid).2.fresh + 3)
    ∧ (create_webrtc_session env st sid cb).2.audio_send_queues sid = some ⟨[], 50⟩
    ∧ (create_webrtc_session env st sid cb).2.media_send_queues sid = some ⟨[], 1⟩
    ∧ (create_webrtc_session env st sid cb).2.session_stats sid = some ⟨0, 0, 0, 0⟩
    ∧ (create_webrtc_session env st sid cb).2.contexts sid =
        some ((close_session env.tear st sid).2.fresh)
    ∧ (create_webrtc_session env st sid cb).2.webrtc_managers sid =
        some ((close_session env.tear st sid).2.fresh + 4)
    ∧ (create_webrtc_session env st sid cb).2.tasks =
        Function.update (Function.update (Function.update
          (close_session env.tear st sid).2.tasks
          ((close_session env.tear st sid).2.fresh + 1) (some TaskStatus.running))
          ((close_session env.tear st sid).2.fresh + 2) (some TaskStatus.running))
          ((close_session env.tear st sid).2.fresh + 3) (some TaskStatus.running) := by
  simp only [create_webrtc_session, h, if_true, hk, Bool.false_eq_true, if_false, hc]
  simp

/-- Counterexample to C8 as stated: creating over the existing session s
while the prior session's WebRTC close raises registers a brand-new task
set (listener 6, processors 7 and 8) although the prior listener (1) and
processors (2, 3) were never cancelled: six running tasks now belong to the
one SessionID, so the prior session was not fully closed before the new
resources were registered. -/
theorem c8_counterexample :
    stReg.sessions "s" = some ()
    ∧ stReg.response_listeners "s" = some 1
    ∧ stReg.send_processor "s" = some (2, 3)
    ∧ (create_webrtc_session envW8 stReg "s" cbSvc).2.tasks 1 = some TaskStatus.running
    ∧ (create_webrtc_session envW8 stReg "s" cbSvc).2.tasks 2 = some TaskStatus.running
    ∧ (create_webrtc_session envW8 stReg "s" cbSvc).2.tasks 3 = some TaskStatus.running
    ∧ (create_webrtc_session envW8 stReg "s" cbSvc).2.response_listeners "s" = some 6
    ∧ (create_webrtc_session envW8 stReg "s" cbSvc).2.send_processor "s" = some (7, 8)
    ∧ (create_webrtc_session envW8 stReg "s" cbSvc).2.tasks 6 = some TaskStatus.running
    ∧ (create_webrtc_session envW8 stReg "s" cbSvc).2.tasks 7 = some TaskStatus.running
    ∧ (create_webrtc_session envW8 stReg "s" cbSvc).2.tasks 8 = some TaskStatus.running :=
  ⟨rfl, rfl, rfl, rfl, rfl, rfl, rfl, rfl, rfl, rfl, rfl⟩

/-- C8 amended: creating a session whose SessionID is already registered
runs close_session to completion before registering anything new (the new
resources are built on the closed state), so the stores never hold two
records for one SessionID; when no teardown step raises, the prior
listener and processor tasks are all terminated before the new task set
(three fresh running tasks) exists.  If a teardown step raises, the prior
store entries are still removed first, but the prior tasks skipped by the
raise remain running alongside the new ones. -/
theorem c8_create_closes_prior (env : CreateEnv) (st : GState) (sid : SessionID)
    (cb : CallbackSet) (h : (st.sessions sid).isSome)
    (hW : env.tear.webrtcCloseRaises = false)
    (hL : env.tear.awaitListenerRaises = false)
    (hA : env.tear.awaitAudioRaises = false)
    (hk : env.apiKeyMissing = false) (hc : env.connect = ConnectOutcome.connOk)
    (hts : ∀ t, st.response_listeners sid = some t → t < st.fresh)
    (htp : ∀ ta tm, st.send_processor sid = some (ta, tm) →
      ta < st.fresh ∧ tm < st.fresh) :
    (∀ t, st.response_listeners sid = some t →
      (create_webrtc_session env st sid cb).2.tasks t = some TaskStatus.done)
    ∧ (∀ ta tm, st.send_processor sid = some (ta, tm) →
      (create_webrtc_session env st sid cb).2.tasks ta = some TaskStatus.done
      ∧ (create_webrtc_session env st sid cb).2.tasks tm = some TaskStatus.done)
    ∧ (create_webrtc_session env st sid cb).2.response_listeners sid =
        some (st.fresh + 1)
    ∧ (create_webrtc_session env st sid cb).2.send_processor sid =
        some (st.fresh + 2, st.fresh + 3)
    ∧ (create_webrtc_session env st sid cb).2.audio_send_queues sid = some ⟨[], 50⟩
    ∧ (create_webrtc_session env st sid cb).2.media_send_queues sid = some ⟨[], 1⟩
    ∧ (create_webrtc_session env st sid cb).2.session_stats sid = some ⟨0, 0, 0, 0⟩
    ∧ (create_webrtc_session env st sid cb).2.tasks (st.fresh + 1) =
        some TaskStatus.running
    ∧ (create_webrtc_session env st sid cb).2.tasks (st.fresh + 2) =
        some TaskStatus.running
    ∧ (create_webrtc_session env st sid cb).2.tasks (st.fresh + 3) =
        some TaskStatus.running := by
  have hp := create_ok_projs env st sid cb h hk hc
  have hCfresh : (close_session env.tear st sid).2.fresh = st.fresh := by
    rw [close_session_state env.tear st sid h]
    exact (closeBody_sameButTasks env.tear st sid).2.2.2.2.2.2.2.2.2.1
  have hCtasks : (close_session env.tear st sid).2.tasks =
      (tdState (closeBody env.tear st sid)).tasks := by
    rw [close_session_state env.tear st sid h]
    exact (clear_session_lookups _ sid).2.2.2.2.2.2.2.2.2
  have hdone := closeBody_tasks_done env.tear st sid hW hL hA
  have htasksfun := hp.2.2.2.2.2.2.2.2.2.2
  rw [hCfresh] at htasksfun
  have hold : ∀ u, u < st.fresh →
      (create_webrtc_session env st sid cb).2.tasks u =
        (close_session env.tear st sid).2.tasks u := by
    intro u hu
    rw [htasksfun]
    rw [Function.update_noteq (by omega), Function.update_noteq (by omega),
      Function.update_noteq (by omega)]
  refine ⟨?_, ?_, ?_, ?_, ?_, ?_, ?_, ?_, ?_, ?_⟩
  · intro t ht
    rw [hold t (hts t ht), hCtasks]
    exact hdone.1 t ht
  · intro ta tm hpp
    obtain ⟨h1, h2⟩ := htp ta tm hpp
    constructor
    · rw [hold ta h1, hCtasks]
      exact (hdone.2 ta tm hpp).1
    · rw [hold tm h2, hCtasks]
      exact (hdone.2 ta tm hpp).2
  · rw [hp.2.2.2.1, hCfresh]
  · rw [hp.2.2.2.2.1, hCfresh]
  · exact hp.2.2.2.2.2.1
  · exact hp.2.2.2.2.2.2.1
  · exact hp.2.2.2.2.2.2.2.1
  · rw [htasksfun]
    rw [Function.update_noteq (by omega), Function.update_noteq (by omega),
      Function.update_same]
  · rw [htasksfun]
    rw [Function.update_noteq (by omega), Function.update_same]
  · rw [htasksfun, Function.update_same]

/-- Witness for the amended C8: recreating the session s over a benign
teardown environment terminates the prior tasks 1, 2, 3 and registers a
fresh task set 6, 7, 8 with fresh queues and zeroed stats. -/
theorem c8_create_closes_prior_witness :
    ((stReg.sessions "s").isSome
     ∧ stReg.response_listeners "s" = some 1
     ∧ stReg.send_processor "s" = some (2, 3)
     ∧ stReg.fresh = 5)
    ∧ ((∀ t, stReg.response_listeners "s" = some t →
        (create_webrtc_session envOkC stReg "s" cbSvc).2.tasks t = some TaskStatus.done)
       ∧ (∀ ta tm, stReg.send_processor "s" = some (ta, tm) →
        (create_webrtc_session envOkC stReg "s" cbSvc).2.tasks ta = some TaskStatus.done
        ∧ (create_webrtc_session envOkC stReg "s" cbSvc).2.tasks tm = some TaskStatus.done)
       ∧ (create_webrtc_session envOkC stReg "s" cbSvc).2.response_listeners "s" =
          some (stReg.fresh + 1)
       ∧ (create_webrtc_session envOkC stReg "s" cbSvc).2.send_processor "s" =
          some (stReg.fresh + 2, stReg.fresh + 3)
       ∧ (create_webrtc_session envOkC stReg "s" cbSvc).2.audio_send_queues "s" = some ⟨[], 50⟩
       ∧ (create_webrtc_session envOkC stReg "s" cbSvc).2.media_send_queues "s" = some ⟨[], 1⟩
       ∧ (create_webrtc_session envOkC stReg "s" cbSvc).2.session_stats "s" = some ⟨0, 0, 0, 0⟩
       ∧ (create_webrtc_session envOkC stReg "s" cbSvc).2.tasks (stReg.fresh + 1) =
          some TaskStatus.running
       ∧ (create_webrtc_session envOkC stReg "s" cbSvc).2.tasks (stReg.fresh + 2) =
          some TaskStatus.running
       ∧ (create_webrtc_session envOkC stReg "s" cbSvc).2.tasks (stReg.fresh + 3) =
          some TaskStatus.running) :=
  ⟨⟨rfl, rfl, rfl, rfl⟩,
   c8_create_closes_prior envOkC stReg "s" cbSvc rfl rfl rfl rfl rfl rfl
     (fun t ht => by
       have h1 : (some 1 : Option Nat) = some t := ht
       injection h1 with h2
       subst h2
       decide)
     (fun ta tm hpp => by
       have h1 : (some ((2 : Nat), (3 : Nat)) : Option (Nat × Nat)) = some (ta, tm) := hpp
       injection h1 with h2
       injection h2 with h3 h4
       subst h3
       subst h4
       exact ⟨by decide, by decide⟩)⟩

/-! ## C4: connect failure leaves the contexts entry behind -/

/-- Creation environment in which the Gemini connect call raises
InvalidStatus. -/
def envC4 : CreateEnv := ⟨tearOk, false, ConnectOutcome.invalidStatus⟩

/-- Creation environment in which the Gemini connect call raises
ValueError. -/
def envC4v : CreateEnv := ⟨tearOk, false, ConnectOutcome.valueError⟩

/-- Counterexample to C4 as stated: when the connect call fails with
InvalidStatus on a fresh SessionID, the error is surfaced (re-raised to the
caller), no session is registered - but the contexts store still holds the
AsyncExitStack entry that was registered before the connect attempt, so one
store does retain an entry for the SessionID. -/
theorem c4_counterexample :
    emptyG.sessions "s" = none
    ∧ (create_webrtc_session envC4 emptyG "s" cbSvc).1 =
        CreateRes.raised ConnectOutcome.invalidStatus
    ∧ (create_webrtc_session envC4 emptyG "s" cbSvc).2.sessions "s" = none
    ∧ (create_webrtc_session envC4 emptyG "s" cbSvc).2.contexts "s" = some 0 :=
  ⟨rfl, rfl, rfl, rfl⟩

/-- C4 amended: for every failure of the connect call during
create_webrtc_session on a SessionID absent from every store, the error is
reported to the creation caller - InvalidStatus and unexpected exception
classes propagate out, while ValueError, RuntimeError and KeyError are
caught and turned into a None return that the service maps to an error
response - and no entry for the SessionID remains in sessions, callbacks,
listeners, processors, queues, stats or webrtc managers; the CONTEXTS
store, however, retains the AsyncExitStack entry registered before the
connect attempt. -/
theorem c4_create_failure_leaves_context (env : CreateEnv) (st : GState)
    (sid : SessionID) (cb : CallbackSet)
    (hfail : env.connect ≠ ConnectOutcome.connOk) (hk : env.apiKeyMissing = false)
    (h1 : st.sessions sid = none) (h2 : st.callbacks sid = none)
    (h3 : st.response_listeners sid = none) (h4 : st.send_processor sid = none)
    (h5 : st.audio_send_queues sid = none) (h6 : st.media_send_queues sid = none)
    (h7 : st.contexts sid = none) (h8 : st.webrtc_managers sid = none)
    (h9 : st.session_stats sid = none) :
    ((env.connect = ConnectOutcome.invalidStatus
      ∨ env.connect = ConnectOutcome.otherError) →
      (create_webrtc_session env st sid cb).1 = CreateRes.raised env.connect)
    ∧ ((env.connect = ConnectOutcome.valueError
        ∨ env.connect = ConnectOutcome.runtimeError
        ∨ env.connect = ConnectOutcome.keyError) →
      (create_webrtc_session env st sid cb).1 = CreateRes.noneRes)
    ∧ (create_webrtc_session env st sid cb).2.sessions sid = none
    ∧ (create_webrtc_session env st sid cb).2.callbacks sid = none
    ∧ (create_webrtc_session env st sid cb).2.response_listeners sid = none
    ∧ (create_webrtc_session env st sid cb).2.send_processor sid = none
    ∧ (create_webrtc_session env st sid cb).2.audio_send_queues sid = none
    ∧ (create_webrtc_session env st sid cb).2.media_send_queues sid = none
    ∧ (create_webrtc_session env st sid cb).2.webrtc_managers sid = none
    ∧ (create_webrtc_session env st sid cb).2.session_stats sid = none
    ∧ (create_webrtc_session env st sid cb).2.contexts sid = some st.fresh := by
  cases hc : env.connect with
  | connOk => exact absurd hc hfail
  | invalidStatus =>
    simp [create_webrtc_session, h1, hk, hc, h2, h3, h4, h5, h6, h7, h8, h9,
      handle_error]
  | otherError =>
    simp [create_webrtc_session, h1, hk, hc, h2, h3, h4, h5, h6, h7, h8, h9,
      handle_error]
  | valueError =>
    simp [create_webrtc_session, h1, hk, hc, h2, h3, h4, h5, h6, h7, h8, h9,
      handle_error]
  | runtimeError =>
    simp [create_webrtc_session, h1, hk, hc, h2, h3, h4, h5, h6, h7, h8, h9,
      handle_error]
  | keyError =>
    simp [create_webrtc_session, h1, hk, hc, h2, h3, h4, h5, h6, h7, h8, h9,
      handle_error]

/-- Witness for the amended C4: a concrete ValueError connect failure on
the empty state returns None and leaves only the contexts entry. -/
theorem c4_create_failure_leaves_context_witness :
    (envC4v.connect ≠ ConnectOutcome.connOk
     ∧ emptyG.sessions "s" = none ∧ emptyG.contexts "s" = none)
    ∧ (((envC4v.connect = ConnectOutcome.invalidStatus
        ∨ envC4v.connect = ConnectOutcome.otherError) →
        (create_webrtc_session envC4v emptyG "s" cbSvc).1 =
          CreateRes.raised envC4v.connect)
       ∧ ((envC4v.connect = ConnectOutcome.valueError
          ∨ envC4v.connect = ConnectOutcome.runtimeError
          ∨ envC4v.connect = ConnectOutcome.keyError) →
        (create_webrtc_session envC4v emptyG "s" cbSvc).1 = CreateRes.noneRes)
       ∧ (create_webrtc_session envC4v emptyG "s" cbSvc).2.sessions "s" = none
       ∧ (create_webrtc_session envC4v emptyG "s" cbSvc).2.callbacks "s" = none
       ∧ (create_webrtc_session envC4v emptyG "s" cbSvc).2.response_listeners "s" = none
       ∧ (create_webrtc_session envC4v emptyG "s" cbSvc).2.send_processor "s" = none
       ∧ (create_webrtc_session envC4v emptyG "s" cbSvc).2.audio_send_queues "s" = none
       ∧ (create_webrtc_session envC4v emptyG "s" cbSvc).2.media_send_queues "s" = none
       ∧ (create_webrtc_session envC4v emptyG "s" cbSvc).2.webrtc_managers "s" = none
       ∧ (create_webrtc_session envC4v emptyG "s" cbSvc).2.session_stats "s" = none
       ∧ (create_webrtc_session envC4v emptyG "s" cbSvc).2.contexts "s" = some emptyG.fresh) :=
  ⟨⟨by decide, rfl, rfl⟩,
   c4_create_failure_leaves_context envC4v emptyG "s" cbSvc (by decide) rfl
     rfl rfl rfl rfl rfl rfl rfl rfl rfl⟩
